import Mathlib

/-!
Verification development for the TeVeo comic-strip generator.

The development shallowly embeds the generation-orchestration and
compositing pipeline: the layout constants (constants.ts), the two
service calls `generateComicPrompts` and `generateImageFromPrompt`
(services/geminiService.ts), the orchestrator `handleGenerateComic`
(App.tsx), and the compositor `drawComicForDownload` (ComicStrip.tsx).
External generation responses are inputs (oracles) to the embedded
functions; platform primitives (JSON.parse, the 2D canvas, the image
decoder) are modelled explicitly and marked as platform models.
-/

namespace TeVeo

/-! ### Layout constants, from src/constants.ts -/

def PANEL_WIDTH : Nat := 500

def PANEL_HEIGHT : Nat := 500

def CAPTION_HEIGHT : Nat := 50

def COMIC_PADDING : Nat := 20

def DEFAULT_PANEL_COUNT : Nat := 4

def PLACEHOLDER_IMAGE_URL : String := "https://picsum.photos/500/500"

/-! ### Dynamic JSON values

The service layer parses the external response with the platform
function JSON.parse and returns the result through an unchecked
TypeScript cast, so the embedded service returns a dynamic `Json`
value rather than a typed record list. -/

inductive Json where
  | jnull : Json
  | jbool (b : Bool) : Json
  | jnum (n : Int) : Json
  | jstr (s : String) : Json
  | jarr (xs : List Json) : Json
  | jobj (fields : List (String × Json)) : Json

/-- Platform model of JavaScript String.prototype.trim whitespace test. -/
def isJsWs (c : Char) : Bool :=
  c = ' ' || c = '\n' || c = '\t' || c = '\r'

/-- Platform model of JavaScript String.prototype.trim. -/
def jsTrim (s : String) : String :=
  String.mk (((s.data.dropWhile isJsWs).reverse.dropWhile isJsWs).reverse)

/-- Platform model of JSON string-literal scanning (after the opening
quote): returns the decoded string and the rest of the input. -/
def scanStringChars : List Char → Option (String × List Char)
  | [] => none
  | '"' :: cs => some ("", cs)
  | '\\' :: c :: cs =>
    match scanStringChars cs with
    | some (s, rest) =>
      let ch := if c = 'n' then '\n' else if c = 't' then '\t' else c
      some (String.mk (ch :: s.data), rest)
    | none => none
  | c :: cs =>
    match scanStringChars cs with
    | some (s, rest) => some (String.mk (c :: s.data), rest)
    | none => none

/-- Collects a run of leading decimal digits. -/
def takeDigits : List Char → List Char × List Char
  | [] => ([], [])
  | c :: cs =>
    if c.isDigit then
      let (ds, rest) := takeDigits cs
      (c :: ds, rest)
    else ([], c :: cs)

def digitsToNat (ds : List Char) : Nat :=
  ds.foldl (fun a c => a * 10 + (c.toNat - 48)) 0

/-- Skips JSON whitespace. -/
def skipWs : List Char → List Char
  | [] => []
  | c :: cs => if isJsWs c then skipWs cs else c :: cs

mutual

/-- Platform model of JSON.parse on one value (fueled recursion);
covers the null/boolean/integer/string/array/object subset the
structured-generation schema uses. -/
def parseVal : Nat → List Char → Option (Json × List Char)
  | 0, _ => none
  | fuel + 1, cs =>
    match skipWs cs with
    | 'n' :: 'u' :: 'l' :: 'l' :: r => some (.jnull, r)
    | 't' :: 'r' :: 'u' :: 'e' :: r => some (.jbool true, r)
    | 'f' :: 'a' :: 'l' :: 's' :: 'e' :: r => some (.jbool false, r)
    | '"' :: r =>
      match scanStringChars r with
      | some (s, r2) => some (.jstr s, r2)
      | none => none
    | '[' :: r =>
      match skipWs r with
      | ']' :: r2 => some (.jarr [], r2)
      | r2 =>
        match parseElems fuel r2 with
        | some (xs, r3) => some (.jarr xs, r3)
        | none => none
    | '{' :: r =>
      match skipWs r with
      | '}' :: r2 => some (.jobj [], r2)
      | r2 =>
        match parseMembers fuel r2 with
        | some (fs, r3) => some (.jobj fs, r3)
        | none => none
    | '-' :: r =>
      match takeDigits r with
      | ([], _) => none
      | (ds, r2) => some (.jnum (-(digitsToNat ds : Int)), r2)
    | c :: r =>
      if c.isDigit then
        match takeDigits (c :: r) with
        | (ds, r2) => some (.jnum (digitsToNat ds : Int), r2)
      else none
    | [] => none

/-- Parses the comma-separated elements of a non-empty JSON array, up
to and including the closing bracket. -/
def parseElems : Nat → List Char → Option (List Json × List Char)
  | 0, _ => none
  | fuel + 1, cs =>
    match parseVal fuel cs with
    | none => none
    | some (v, r) =>
      match skipWs r with
      | ',' :: r2 =>
        match parseElems fuel r2 with
        | some (vs, r3) => some (v :: vs, r3)
        | none => none
      | ']' :: r2 => some ([v], r2)
      | _ => none

/-- Parses the comma-separated members of a non-empty JSON object, up
to and including the closing brace. -/
def parseMembers : Nat → List Char → Option (List (String × Json) × List Char)
  | 0, _ => none
  | fuel + 1, cs =>
    match skipWs cs with
    | '"' :: r =>
      match scanStringChars r with
      | none => none
      | some (key, r2) =>
        match skipWs r2 with
        | ':' :: r3 =>
          match parseVal fuel r3 with
          | none => none
          | some (v, r4) =>
            match skipWs r4 with
            | ',' :: r5 =>
              match parseMembers fuel r5 with
              | some (fs, r6) => some ((key, v) :: fs, r6)
              | none => none
            | '}' :: r5 => some ([(key, v)], r5)
            | _ => none
        | _ => none
    | _ => none

end

/-- Platform model of JSON.parse: `none` models the SyntaxError throw. -/
def jsonParse (s : String) : Option Json :=
  match parseVal (2 * s.length + 2) s.data with
  | some (j, r) => if skipWs r = [] then some j else none
  | none => none

/-! ### JavaScript value helpers used by the orchestrator -/

/-- Platform model of JavaScript falsiness of a parsed JSON value. -/
def jsFalsy : Json → Bool
  | .jnull => true
  | .jbool b => !b
  | .jnum n => n == 0
  | .jstr s => s == ""
  | _ => false

/-- Platform model of the test `value.length === 0` on a parsed JSON
value (the `.length` of a non-array non-string is undefined, which is
not strictly equal to 0). -/
def jsLengthZero : Json → Bool
  | .jarr xs => xs.isEmpty
  | .jstr s => s == ""
  | _ => false

/-- Platform model of `for (const x of value)` over a parsed JSON
value: arrays iterate their elements, strings iterate one-character
strings, anything else throws a TypeError (`none`). -/
def jsIterate : Json → Option (List Json)
  | .jarr xs => some xs
  | .jstr s => some (s.data.map fun c => Json.jstr (String.mk [c]))
  | _ => none

def lookupField : List (String × Json) → String → Option Json
  | [], _ => none
  | (k, v) :: rest, name => if k = name then some v else lookupField rest name

/-- Platform model of JavaScript property access `value.name` on a
parsed JSON value: `none` models undefined. -/
def Json.getField (j : Json) (name : String) : Option Json :=
  match j with
  | .jobj fs => lookupField fs name
  | _ => none

/-- Platform model of JavaScript string coercion of a panel field as
stored into a ComicPanel caption (array display is approximated at
depth one; the pipeline only ever stores strings here). -/
def jsDisplay : Option Json → String
  | none => "undefined"
  | some .jnull => "null"
  | some (.jbool b) => cond b "true" "false"
  | some (.jnum n) => toString n
  | some (.jstr s) => s
  | some (.jarr _) => "[array]"
  | some (.jobj _) => "[object Object]"

/-! ### Errors

The source throws JavaScript Error values carrying message strings;
the embedding keeps the error structure (which throw site produced it
and how it was re-wrapped) and renders the message with `errMessage`.
The spec names the kinds ConfigurationError, EmptyResponseError,
ParseError and TransportError for these throw sites. -/

inductive JsError where
  | configError : JsError
  | emptyResponse : JsError
  | parseError : JsError
  | noImageData : JsError
  | notIterable : JsError
  | emptyPrompts : JsError
  | transport (msg : String) : JsError
  | wrapPrompts (e : JsError) : JsError
  | wrapImage (e : JsError) : JsError
deriving DecidableEq

/-- Message strings thrown by the source (the ParseError and
TypeError texts are platform-generated; fixed representatives are
used). -/
def errMessage : JsError → String
  | .configError => "API_KEY environment variable is not set."
  | .emptyResponse => "Empty response or no text content from Gemini API for comic prompts."
  | .parseError => "Unexpected token in JSON"
  | .noImageData => "No image data found in the Gemini API response."
  | .notIterable => "panelPrompts is not iterable"
  | .emptyPrompts => "El modelo no pudo generar las descripciones para las viñetas del cómic."
  | .transport msg => msg
  | .wrapPrompts e => "Failed to generate comic prompts: " ++ errMessage e
  | .wrapImage e => "Failed to generate image: " ++ errMessage e

/-! ### Service layer, from services/geminiService.ts

Each service function takes the external response as an oracle input:
`Except String α` distinguishes a transport failure of the await from
a delivered response. The returned Bool records whether the external
call was actually issued (the API-key check happens before the call). -/

/-- Parts of an image-generation response candidate. -/
inductive GenPart where
  | inlineData (data : String) : GenPart
  | textPart (s : String) : GenPart

/-- Scan of the response parts for the first inline image payload,
as in the for-of loop of generateImageFromPrompt. -/
def firstInlineData : List GenPart → Option String
  | [] => none
  | .inlineData d :: _ => some d
  | .textPart _ :: rest => firstInlineData rest

/-- Embedding of generateComicPrompts. `panelCount` parameterizes the
instruction text of the external structured-generation request, whose
reply the oracle `resp` models (`.ok t` delivers the optional text
field of the response). The parsed JSON is returned through an
unchecked cast: no shape, count or index validation happens here. -/
def generateComicPrompts (apiKey : Option String) (panelCount : Nat)
    (resp : Except String (Option String)) : Except JsError Json × Bool :=
  match apiKey with
  | none => (.error .configError, false)
  | some _ =>
    match resp with
    | .error m => (.error (.wrapPrompts (.transport m)), true)
    | .ok t =>
      let jsonStr := jsTrim (t.getD "")
      if jsonStr = "" then (.error (.wrapPrompts .emptyResponse), true)
      else
        match jsonParse jsonStr with
        | none => (.error (.wrapPrompts .parseError), true)
        | some j => (.ok j, true)

/-- Embedding of generateImageFromPrompt. `imagePrompt` is the text
forwarded to the external image-generation request (the reply is the
oracle `resp`, so the outcome does not depend on it); the function
scans the delivered parts for the first inline payload. -/
def generateImageFromPrompt (apiKey : Option String) (imagePrompt : Option Json)
    (resp : Except String (List GenPart)) : Except JsError String × Bool :=
  match apiKey with
  | none => (.error .configError, false)
  | some _ =>
    match resp with
    | .error m => (.error (.wrapImage (.transport m)), true)
    | .ok parts =>
      match firstInlineData parts with
      | some d => (.ok d, true)
      | none => (.error (.wrapImage .noImageData), true)

/-! ### Orchestrator, from App.tsx -/

structure UploadedImage where
  base64 : String
  filename : String

/-- ComicPanel record from types.ts as built by the orchestrator. -/
structure ComicPanel where
  caption : String
  imageBase64 : String
deriving DecidableEq

inductive AppView where
  | upload : AppView
  | preview : AppView
  | comic : AppView
deriving DecidableEq

/-- React component state read and written by handleGenerateComic. -/
structure AppState where
  view : AppView
  uploadedImage : Option UploadedImage
  uploadedImageMimeType : Option String
  comicPanels : List ComicPanel
  comicDownloadDataUrl : Option String
  loading : Bool
  error : Option String

/-- External world of one pipeline run: the ambient credential and
the replies of the external generation service. `imgResp i` is the
reply delivered to the i-th image-generation call of the run. -/
structure Env where
  apiKey : Option String
  promptResp : Except String (Option String)
  imgResp : Nat → Except String (List GenPart)

/-- Observable call events of one run, used to state the ordering
guarantees: a Start is emitted when an external request is issued and
the matching End when its await completes (with success or failure). -/
inductive Event where
  | promptCallStart : Event
  | promptCallEnd : Event
  | imageCallStart (i : Nat) : Event
  | imageCallEnd (i : Nat) : Event
deriving DecidableEq

/-- Step 2 of handleGenerateComic: the strictly sequential for-of
loop over the panel prompts, awaiting one image-generation call per
entry and accumulating ComicPanel records; the first failure aborts
the loop and propagates. `i` is the index of the next call. -/
def runPanels (env : Env) : Nat → List Json → Except JsError (List ComicPanel) × List Event
  | _, [] => (.ok [], [])
  | i, el :: rest =>
    let r := generateImageFromPrompt env.apiKey (el.getField "imagePrompt") (env.imgResp i)
    let tr := if r.2 then [Event.imageCallStart i, Event.imageCallEnd i] else []
    match r.1 with
    | .error e => (.error e, tr)
    | .ok data =>
      let pr := runPanels env (i + 1) rest
      match pr.1 with
      | .error e => (.error e, tr ++ pr.2)
      | .ok ps =>
        (.ok ({ caption := jsDisplay (el.getField "caption"), imageBase64 := data } :: ps),
         tr ++ pr.2)

/-- Top-level error string stored by the catch of handleGenerateComic. -/
def topError (e : JsError) : String :=
  "Error al generar el cómic: " ++ errMessage e

/-- Embedding of handleGenerateComic: clears the run state, invokes
the Prompt Generator once, checks the guard on the returned value,
then runs the sequential panel loop; any thrown error lands in the
catch, which stores one aggregate message. Returns the final
component state and the trace of external calls. -/
def handleGenerateComic (env : Env) (st : AppState) : AppState × List Event :=
  match st.uploadedImage, st.uploadedImageMimeType with
  | some _, some _ =>
    let st1 := { st with loading := true, error := none, comicPanels := [],
                         comicDownloadDataUrl := none }
    let pres := generateComicPrompts env.apiKey DEFAULT_PANEL_COUNT env.promptResp
    let ptrace := if pres.2 then [Event.promptCallStart, Event.promptCallEnd] else []
    match pres.1 with
    | .error e => ({ st1 with error := some (topError e), loading := false }, ptrace)
    | .ok j =>
      if jsFalsy j || jsLengthZero j then
        ({ st1 with error := some (topError .emptyPrompts), loading := false }, ptrace)
      else
        match jsIterate j with
        | none => ({ st1 with error := some (topError .notIterable), loading := false }, ptrace)
        | some elems =>
          let lres := runPanels env 0 elems
          match lres.1 with
          | .error e =>
            ({ st1 with error := some (topError e), loading := false }, ptrace ++ lres.2)
          | .ok ps =>
            ({ st1 with comicPanels := ps, view := .comic, loading := false },
             ptrace ++ lres.2)
  | _, _ => ({ st with error := some "No hay imagen cargada para generar el cómic." }, [])

/-! ### Compositor, from components/ComicStrip.tsx

The 2D canvas is modelled as a pixel map with a width and a height;
drawing is a list of operations applied in order. A decoded
illustration is modelled as the pixel function of its already-scaled
W by H raster, and the browser image loader as an oracle from the img
src string to the decode outcome (`none` fires the onerror handler). -/

def Color : Type := String

def Image : Type := Nat → Nat → Color

structure Canvas where
  width : Nat
  height : Nat
  pix : Nat → Nat → Color

/-- Graphics-context state threaded through the draw loop. -/
structure Ctx where
  fillStyle : String
  font : String
  textAlign : String
deriving DecidableEq

inductive DrawOp where
  | fillRect (x y w h : Nat) (color : Color) : DrawOp
  | blit (img : Image) (x y w h : Nat) : DrawOp
  | text (s : String) (x y : Nat) (font : String) (color : Color) (align : String) : DrawOp

/-- Total canvas width of the stitched strip for `n` panels (line 30
of ComicStrip.tsx); only reached with `n` at least 1. -/
def totalWidth (n : Nat) : Nat :=
  n * PANEL_WIDTH + (n - 1) * COMIC_PADDING + 2 * COMIC_PADDING

/-- Total canvas height of the stitched strip (line 31). -/
def totalHeight : Nat :=
  PANEL_HEIGHT + CAPTION_HEIGHT + 2 * COMIC_PADDING

/-- Source URL chosen for a panel image (line 47): data URL when the
base64 payload is present (non-empty string truthiness), otherwise
the placeholder URL. -/
def panelSrc (p : ComicPanel) : String :=
  if p.imageBase64 ≠ "" then "data:image/png;base64," ++ p.imageBase64
  else PLACEHOLDER_IMAGE_URL

/-- Platform model of glyph coverage of the canvas text rasterizer
for the fixed 20px font: a deterministic region around the anchor
point (centered for textAlign center, to the right otherwise). Only
its determinism matters to the theorems below. -/
def glyphCovers (s : String) (tx ty : Nat) (align : String) (px py : Nat) : Prop :=
  let hw := 5 * s.length
  if align = "center" then
    tx ≤ px + hw ∧ px < tx + hw ∧ ty ≤ py + 14 ∧ py ≤ ty + 4
  else
    tx ≤ px ∧ px < tx + 2 * hw ∧ ty ≤ py + 14 ∧ py ≤ ty + 4

instance (s : String) (tx ty : Nat) (align : String) (px py : Nat) :
    Decidable (glyphCovers s tx ty align px py) := by
  unfold glyphCovers; exact inferInstance

/-- Effect of one draw operation on the pixel map. -/
def applyOp (op : DrawOp) (pm : Nat → Nat → Color) : Nat → Nat → Color :=
  match op with
  | .fillRect x y w h c => fun px py =>
    if x ≤ px ∧ px < x + w ∧ y ≤ py ∧ py < y + h then c else pm px py
  | .blit img x y w h => fun px py =>
    if x ≤ px ∧ px < x + w ∧ y ≤ py ∧ py < y + h then img (px - x) (py - y) else pm px py
  | .text s tx ty _ c align => fun px py =>
    if glyphCovers s tx ty align px py then c else pm px py

def applyOps (ops : List DrawOp) (pm : Nat → Nat → Color) : Nat → Nat → Color :=
  ops.foldl (fun acc op => applyOp op acc) pm

/-- Context state right before the draw loop: lines 39 to 41 set the
font, the fill style and the text alignment once. -/
def stitchCtx : Ctx :=
  { fillStyle := "#333", font := "20px Arial", textAlign := "center" }

/-- Baseline y of every caption (line 53): vertical center of the
caption band plus the fixed 10px baseline adjustment of the source. -/
def capY : Nat := COMIC_PADDING + PANEL_HEIGHT + CAPTION_HEIGHT / 2 + 10

/-- Draw loop of drawComicForDownload (lines 43 to 71): one panel per
iteration at the running x offset, awaiting the image decode; onload
blits the illustration and draws the caption, onerror draws the
fallback rectangle with its label and still draws the caption. The
context state is threaded exactly as the source mutates fillStyle. -/
def drawLoop (loadImage : String → Option Image) :
    Nat → Ctx → List ComicPanel → Ctx × List DrawOp
  | _, c, [] => (c, [])
  | x, c, p :: ps =>
    match loadImage (panelSrc p) with
    | some img =>
      let ops := [DrawOp.blit img x COMIC_PADDING PANEL_WIDTH PANEL_HEIGHT,
                  DrawOp.text p.caption (x + PANEL_WIDTH / 2) capY c.font c.fillStyle c.textAlign]
      let rest := drawLoop loadImage (x + PANEL_WIDTH + COMIC_PADDING) c ps
      (rest.1, ops ++ rest.2)
    | none =>
      let c1 := { c with fillStyle := "#e0e0e0" }
      let op1 := DrawOp.fillRect x COMIC_PADDING PANEL_WIDTH PANEL_HEIGHT c1.fillStyle
      let c2 := { c1 with fillStyle := "#666" }
      let op2 := DrawOp.text "Error cargando imagen" (x + PANEL_WIDTH / 2)
        (COMIC_PADDING + PANEL_HEIGHT / 2) c2.font c2.fillStyle c2.textAlign
      let c3 := { c2 with fillStyle := "#333" }
      let op3 := DrawOp.text p.caption (x + PANEL_WIDTH / 2) capY c3.font c3.fillStyle c3.textAlign
      let rest := drawLoop loadImage (x + PANEL_WIDTH + COMIC_PADDING) c3 ps
      (rest.1, [op1, op2, op3] ++ rest.2)

/-- Complete operation list of one stitch: the background fill (lines
36 to 37, drawn with the fill style set just before it) followed by
the per-panel draw loop started at x = COMIC_PADDING with the context
state of lines 39 to 41. -/
def stitchOps (loadImage : String → Option Image) (panels : List ComicPanel) : List DrawOp :=
  DrawOp.fillRect 0 0 (totalWidth panels.length) totalHeight "#f9fafb"
    :: (drawLoop loadImage COMIC_PADDING stitchCtx panels).2

/-- Color of a canvas cleared by assigning its width and height
(platform behavior of the dimension setters: all pixels reset). -/
def CANVAS_CLEAR : Color := "rgba(0,0,0,0)"

/-- Embedding of drawComicForDownload: returns the canvas after the
stitch together with whether onDownloadReady was invoked (it receives
the lossless encoding of exactly the returned canvas). Early return
when the canvas ref is not mounted or the panel list is empty;
otherwise the dimension assignment clears the surface, the operation
list is drawn, and the data URL is produced. -/
def drawComicForDownload (loadImage : String → Option Image)
    (canvasRef : Option Canvas) (panels : List ComicPanel) : Option Canvas × Bool :=
  match canvasRef with
  | none => (none, false)
  | some _ =>
    if panels.length = 0 then (canvasRef, false)
    else
      (some { width := totalWidth panels.length, height := totalHeight,
              pix := applyOps (stitchOps loadImage panels) (fun _ _ => CANVAS_CLEAR) },
       true)

/-- Guard of the ComicStrip effect (lines 78 to 82): whether the
component invokes drawComicForDownload at all. -/
def comicStripEffect (panels : List ComicPanel) (loading : Bool) : Bool :=
  decide (panels.length > 0) && !loading

/-! ### Closed form of the draw loop -/

/-- Left edge of the i-th panel slot (0-based). -/
def panelX (i : Nat) : Nat := COMIC_PADDING + i * (PANEL_WIDTH + COMIC_PADDING)

/-- Operations the loop emits for a panel whose image decoded. -/
def successOps (img : Image) (x : Nat) (cap : String) : List DrawOp :=
  [DrawOp.blit img x COMIC_PADDING PANEL_WIDTH PANEL_HEIGHT,
   DrawOp.text cap (x + PANEL_WIDTH / 2) capY "20px Arial" "#333" "center"]

/-- Operations the loop emits for a panel whose image failed to
decode: the fallback rectangle over the illustration area, its label
at the center of that area, and the caption unchanged. -/
def fallbackOps (x : Nat) (cap : String) : List DrawOp :=
  [DrawOp.fillRect x COMIC_PADDING PANEL_WIDTH PANEL_HEIGHT "#e0e0e0",
   DrawOp.text "Error cargando imagen" (x + PANEL_WIDTH / 2)
     (COMIC_PADDING + PANEL_HEIGHT / 2) "20px Arial" "#666" "center",
   DrawOp.text cap (x + PANEL_WIDTH / 2) capY "20px Arial" "#333" "center"]

/-- Operations emitted for one panel at slot position x, by decode
outcome. -/
def panelOpsAt (loadImage : String → Option Image) (x : Nat) (p : ComicPanel) : List DrawOp :=
  match loadImage (panelSrc p) with
  | some img => successOps img x p.caption
  | none => fallbackOps x p.caption

/-- Record-eta fact: after a fallback branch the loop has restored
the fill style, so the context equals the loop invariant again. -/
theorem ctx_restore :
    ({ fillStyle := "#333", font := stitchCtx.font, textAlign := stitchCtx.textAlign } : Ctx)
      = stitchCtx := rfl

theorem drawLoop_closed (loadImage : String → Option Image) (ps : List ComicPanel) (x : Nat) :
    drawLoop loadImage x stitchCtx ps =
      (stitchCtx,
       ((List.finRange ps.length).map
         (fun i => panelOpsAt loadImage (x + i.1 * (PANEL_WIDTH + COMIC_PADDING)) (ps.get i))).flatten) := by
  induction ps generalizing x with
  | nil => simp [drawLoop]
  | cons p ps ih =>
    have h2 := ih (x + PANEL_WIDTH + COMIC_PADDING)
    cases hload : loadImage (panelSrc p) with
    | some img =>
      simp only [drawLoop, hload, h2, List.length_cons, List.finRange_succ_eq_map,
        List.map_cons, List.map_map, List.flatten_cons, Prod.mk.injEq,
        Fin.val_zero, Nat.zero_mul, Nat.add_zero, List.get_cons_zero]
      refine ⟨trivial, ?_⟩
      congr 1
      · simp [panelOpsAt, hload, successOps, stitchCtx]
      · congr 1
        apply List.map_congr_left
        intro i _
        simp only [Function.comp, List.get_cons_succ, Fin.val_succ]
        congr 1
        ring
    | none =>
      simp only [drawLoop, hload, ctx_restore, h2, List.length_cons, List.finRange_succ_eq_map,
        List.map_cons, List.map_map, List.flatten_cons, Prod.mk.injEq,
        Fin.val_zero, Nat.zero_mul, Nat.add_zero, List.get_cons_zero]
      refine ⟨trivial, ?_⟩
      congr 1
      · simp [panelOpsAt, hload, fallbackOps, stitchCtx]
      · congr 1
        apply List.map_congr_left
        intro i _
        simp only [Function.comp, List.get_cons_succ, Fin.val_succ]
        congr 1
        ring

/-- Closed form of the full stitch operation list. -/
theorem stitchOps_closed (loadImage : String → Option Image) (panels : List ComicPanel) :
    stitchOps loadImage panels =
      DrawOp.fillRect 0 0 (totalWidth panels.length) totalHeight "#f9fafb"
        :: ((List.finRange panels.length).map
             (fun i => panelOpsAt loadImage (panelX i.1) (panels.get i))).flatten := by
  unfold stitchOps
  rw [drawLoop_closed]
  simp [panelX]

/-! ### Sequencing lemmas for the orchestrator -/

/-- Expected trace of m sequential image-generation calls starting at
call index i: each call ends before the next one starts. -/
def callTrace : Nat → Nat → List Event
  | _, 0 => []
  | i, m + 1 => Event.imageCallStart i :: Event.imageCallEnd i :: callTrace (i + 1) m

theorem mem_callTrace_start {j i m : Nat} :
    Event.imageCallStart j ∈ callTrace i m → j < i + m := by
  induction m generalizing i with
  | zero => intro h; exact absurd h (by simp [callTrace])
  | succ m ih =>
    intro h
    simp only [callTrace, List.mem_cons] at h
    rcases h with h | h | h
    · cases h; omega
    · cases h
    · have := ih h
      omega

/-- Outcome of the i-th image-generation call of a run; it depends
only on the oracle reply, not on the forwarded prompt text. -/
def imgOutcome (env : Env) (i : Nat) : Except JsError String :=
  (generateImageFromPrompt env.apiKey none (env.imgResp i)).1

theorem imgOutcome_eq (env : Env) (i : Nat) (p : Option Json) :
    (generateImageFromPrompt env.apiKey p (env.imgResp i)).1 = imgOutcome env i := rfl

theorem imgIssued (env : Env) (key : String) (hk : env.apiKey = some key)
    (i : Nat) (p : Option Json) :
    (generateImageFromPrompt env.apiKey p (env.imgResp i)).2 = true := by
  rw [hk]
  cases hresp : env.imgResp i with
  | error m => rfl
  | ok parts =>
    simp only [generateImageFromPrompt]
    cases h : firstInlineData parts <;> simp [h]

/-- Behavior of the panel loop up to and including its first failing
call: with the calls before index k succeeding and call k failing,
the loop stops at k, issues exactly the calls 0..k, and propagates
the failing call's error. -/
theorem runPanels_first_fail (env : Env) (key : String) (hk : env.apiKey = some key)
    (err : JsError) :
    ∀ (es : List Json) (i k : Nat), k < es.length →
      (∀ j, j < k → ∃ d, imgOutcome env (i + j) = .ok d) →
      imgOutcome env (i + k) = .error err →
      runPanels env i es = (.error err, callTrace i (k + 1)) := by
  intro es
  induction es with
  | nil =>
    intro i k hkl _ _
    exact absurd hkl (by simp)
  | cons el rest ih =>
    intro i k hkl hok hfail
    cases k with
    | zero =>
      have h1 : (generateImageFromPrompt env.apiKey (el.getField "imagePrompt")
          (env.imgResp i)).1 = .error err := by
        rw [imgOutcome_eq]
        simpa using hfail
      have h2 := imgIssued env key hk i (el.getField "imagePrompt")
      simp only [runPanels, h1, h2, if_true]
      rfl
    | succ k =>
      obtain ⟨d, hd⟩ := hok 0 (Nat.succ_pos k)
      have h1 : (generateImageFromPrompt env.apiKey (el.getField "imagePrompt")
          (env.imgResp i)).1 = .ok d := by
        rw [imgOutcome_eq]
        simpa using hd
      have h2 := imgIssued env key hk i (el.getField "imagePrompt")
      have hok2 : ∀ j, j < k → ∃ d2, imgOutcome env ((i + 1) + j) = .ok d2 := by
        intro j hj
        obtain ⟨d2, hd2⟩ := hok (j + 1) (by omega)
        exact ⟨d2, by rw [show (i + 1) + j = i + (j + 1) by omega]; exact hd2⟩
      have hfail2 : imgOutcome env ((i + 1) + k) = .error err := by
        rw [show (i + 1) + k = i + (k + 1) by omega]
        exact hfail
      have h3 := ih (i + 1) k (by simpa using hkl) hok2 hfail2
      simp only [runPanels, h1, h2, if_true, h3]
      rfl

/-- Well-sequenced image-call trace: starting from the next expected
index, calls come strictly one at a time, each call's End event
immediately after its Start and before the next call's Start. -/
inductive SeqOk : Nat → List Event → Prop
  | nil (n : Nat) : SeqOk n []
  | step (n : Nat) (tr : List Event) :
      SeqOk (n + 1) tr →
      SeqOk n (Event.imageCallStart n :: Event.imageCallEnd n :: tr)

/-- Trace shape of a whole run: either no external call was issued,
or the prompt call starts and ends first and is followed by a
well-sequenced image-call trace. -/
def SequentialRun (tr : List Event) : Prop :=
  tr = [] ∨ ∃ tr2, tr = Event.promptCallStart :: Event.promptCallEnd :: tr2 ∧ SeqOk 0 tr2

theorem runPanels_seq (env : Env) :
    ∀ (es : List Json) (i : Nat), SeqOk i (runPanels env i es).2 := by
  intro es
  induction es with
  | nil =>
    intro i
    exact SeqOk.nil i
  | cons el rest ih =>
    intro i
    cases hk : env.apiKey with
    | none =>
      simp only [runPanels, generateImageFromPrompt, hk]
      exact SeqOk.nil i
    | some key =>
      have h2 := imgIssued env key hk i (el.getField "imagePrompt")
      cases h1 : (generateImageFromPrompt env.apiKey (el.getField "imagePrompt")
          (env.imgResp i)).1 with
      | error e =>
        simp only [runPanels, h1, h2, if_true]
        exact SeqOk.step i [] (SeqOk.nil (i + 1))
      | ok d =>
        cases h3 : (runPanels env (i + 1) rest).1 with
        | error e =>
          simp only [runPanels, h1, h2, h3, if_true]
          exact SeqOk.step i _ (ih (i + 1))
        | ok ps =>
          simp only [runPanels, h1, h2, h3, if_true]
          exact SeqOk.step i _ (ih (i + 1))

/-! ### Sample inputs used by witnesses -/

def sampleImage : Image := fun _ _ => "#ffffff"

def sampleLoader : String → Option Image := fun _ => some sampleImage

def sampleCanvas : Canvas := { width := 0, height := 0, pix := fun _ _ => "#000000" }

def sampleCanvas2 : Canvas := { width := 7, height := 9, pix := fun _ _ => "#123456" }

def samplePanel (i : Nat) : ComicPanel :=
  { caption := "cap" ++ toString i, imageBase64 := "data" ++ toString i }

def samplePanels4 : List ComicPanel :=
  [samplePanel 0, samplePanel 1, samplePanel 2, samplePanel 3]

/-! ### Claim theorems -/

/-- C2: for every non-empty panel list of length N the stitched
raster canvas has width N·W + (N-1)·P + 2·P and height H + C + 2·P
with W = 500, H = 500, C = 50, P = 20; in particular for N = 4 the
raster is 2100 by 590 pixels. -/
theorem stitched_raster_dimensions (loadImage : String → Option Image)
    (panels : List ComicPanel) (c : Canvas) (h : panels ≠ []) :
    ∃ c2, (drawComicForDownload loadImage (some c) panels).1 = some c2
      ∧ c2.width = panels.length * PANEL_WIDTH + (panels.length - 1) * COMIC_PADDING
          + 2 * COMIC_PADDING
      ∧ c2.height = PANEL_HEIGHT + CAPTION_HEIGHT + 2 * COMIC_PADDING
      ∧ (panels.length = 4 → c2.width = 2100 ∧ c2.height = 590) := by
  have hlen : panels.length ≠ 0 := fun hl => h (List.length_eq_zero.mp hl)
  refine ⟨{ width := totalWidth panels.length, height := totalHeight,
            pix := applyOps (stitchOps loadImage panels) (fun _ _ => CANVAS_CLEAR) },
          ?_, rfl, rfl, ?_⟩
  · simp [drawComicForDownload, hlen]
  · intro h4
    simp only [totalWidth, totalHeight, h4]
    constructor <;> decide

/-- Witness for C2 at a concrete 4-panel list. -/
theorem stitched_raster_dimensions_witness :
    ∃ c2, (drawComicForDownload sampleLoader (some sampleCanvas) samplePanels4).1 = some c2
      ∧ c2.width = samplePanels4.length * PANEL_WIDTH
          + (samplePanels4.length - 1) * COMIC_PADDING + 2 * COMIC_PADDING
      ∧ c2.height = PANEL_HEIGHT + CAPTION_HEIGHT + 2 * COMIC_PADDING
      ∧ (samplePanels4.length = 4 → c2.width = 2100 ∧ c2.height = 590) :=
  stitched_raster_dimensions sampleLoader samplePanels4 sampleCanvas (by decide)

/-- C3: the stitch draws panels strictly in increasing panel-index
order, the i-th slot's operations coming after all lower slots and at
x offset P + i·(W+P); a resolved illustration is blitted at
(P + i·(W+P), P) scaled to W by H, regardless of any resolution
order (the operation list is a function of list position only). -/
theorem stitched_raster_panel_order (loadImage : String → Option Image)
    (panels : List ComicPanel) :
    stitchOps loadImage panels
      = DrawOp.fillRect 0 0 (totalWidth panels.length) totalHeight "#f9fafb"
        :: ((List.finRange panels.length).map (fun i =>
              panelOpsAt loadImage (COMIC_PADDING + i.1 * (PANEL_WIDTH + COMIC_PADDING))
                (panels.get i))).flatten
    ∧ ∀ (i : Fin panels.length) (img : Image),
        loadImage (panelSrc (panels.get i)) = some img →
        panelOpsAt loadImage (COMIC_PADDING + i.1 * (PANEL_WIDTH + COMIC_PADDING))
            (panels.get i)
          = [DrawOp.blit img (COMIC_PADDING + i.1 * (PANEL_WIDTH + COMIC_PADDING))
               COMIC_PADDING PANEL_WIDTH PANEL_HEIGHT,
             DrawOp.text (panels.get i).caption
               (COMIC_PADDING + i.1 * (PANEL_WIDTH + COMIC_PADDING) + PANEL_WIDTH / 2)
               capY "20px Arial" "#333" "center"] := by
  constructor
  · simpa [panelX] using stitchOps_closed loadImage panels
  · intro i img hload
    simp only [List.get_eq_getElem] at hload
    simp [panelOpsAt, hload, successOps]

/-- Witness for C3 at a concrete panel list and loader. -/
theorem stitched_raster_panel_order_witness :
    panelOpsAt sampleLoader (COMIC_PADDING + 1 * (PANEL_WIDTH + COMIC_PADDING))
        (samplePanels4.get ⟨1, by decide⟩)
      = [DrawOp.blit sampleImage (COMIC_PADDING + 1 * (PANEL_WIDTH + COMIC_PADDING))
           COMIC_PADDING PANEL_WIDTH PANEL_HEIGHT,
         DrawOp.text (samplePanels4.get ⟨1, by decide⟩).caption
           (COMIC_PADDING + 1 * (PANEL_WIDTH + COMIC_PADDING) + PANEL_WIDTH / 2)
           capY "20px Arial" "#333" "center"] :=
  (stitched_raster_panel_order sampleLoader samplePanels4).2 ⟨1, by decide⟩ sampleImage rfl

/-- C4: when exactly one panel's illustration fails to decode (the
loader L answers like the fully-succeeding loader Lok everywhere
except panel k, where it fails), the stitch still has N panel slots:
slot k holds the fallback rectangle and its label at the coordinates
the illustration would occupy plus that panel's caption, and every
other slot's operations are exactly those of the fully-succeeding
run; every panel's caption is drawn either way. -/
theorem stitched_raster_single_failure (L Lok : String → Option Image)
    (panels : List ComicPanel) (k : Fin panels.length)
    (hfail : L (panelSrc (panels.get k)) = none)
    (hsame : ∀ j : Fin panels.length, j ≠ k →
      L (panelSrc (panels.get j)) = Lok (panelSrc (panels.get j)))
    (hok : ∀ j : Fin panels.length, (Lok (panelSrc (panels.get j))).isSome) :
    stitchOps L panels
      = DrawOp.fillRect 0 0 (totalWidth panels.length) totalHeight "#f9fafb"
        :: ((List.finRange panels.length).map (fun j =>
             if j = k then fallbackOps (panelX j.1) (panels.get k).caption
             else panelOpsAt Lok (panelX j.1) (panels.get j))).flatten
    ∧ ∀ j : Fin panels.length,
        DrawOp.text (panels.get j).caption (panelX j.1 + PANEL_WIDTH / 2) capY
          "20px Arial" "#333" "center" ∈ stitchOps L panels := by
  simp only [List.get_eq_getElem] at hfail hsame ⊢
  constructor
  · rw [stitchOps_closed]
    congr 1
    congr 1
    apply List.map_congr_left
    intro j _
    by_cases hj : j = k
    · subst hj
      simp [panelOpsAt, hfail]
    · simp only [if_neg hj, panelOpsAt, List.get_eq_getElem, hsame j hj]
  · intro j
    rw [stitchOps_closed]
    apply List.mem_cons_of_mem
    rw [List.mem_flatten]
    refine ⟨panelOpsAt L (panelX j.1) (panels.get j),
            List.mem_map.mpr ⟨j, List.mem_finRange j, rfl⟩, ?_⟩
    unfold panelOpsAt
    cases hload : L (panelSrc (panels.get j)) with
    | some img => simp [successOps]
    | none => simp [fallbackOps]

/-- Loader that fails exactly on the src of samplePanel 0 and decodes
everything else, used to witness the single-failure claim. -/
def failingLoader : String → Option Image :=
  fun s => if s = panelSrc (samplePanel 0) then none else some sampleImage

/-- Witness for C4 at a concrete 4-panel list with slot 0 failing. -/
theorem stitched_raster_single_failure_witness :
    stitchOps failingLoader samplePanels4
      = DrawOp.fillRect 0 0 (totalWidth samplePanels4.length) totalHeight "#f9fafb"
        :: ((List.finRange samplePanels4.length).map (fun j =>
             if j = (⟨0, by decide⟩ : Fin samplePanels4.length) then
               fallbackOps (panelX j.1) (samplePanels4.get ⟨0, by decide⟩).caption
             else panelOpsAt sampleLoader (panelX j.1) (samplePanels4.get j))).flatten
    ∧ ∀ j : Fin samplePanels4.length,
        DrawOp.text (samplePanels4.get j).caption (panelX j.1 + PANEL_WIDTH / 2) capY
          "20px Arial" "#333" "center" ∈ stitchOps failingLoader samplePanels4 :=
  stitched_raster_single_failure failingLoader sampleLoader samplePanels4 ⟨0, by decide⟩
    (by rfl)
    (by
      intro j hj
      fin_cases j
      · exact absurd rfl hj
      · rfl
      · rfl
      · rfl)
    (fun _ => rfl)

/-- C8: every panel's caption is drawn as a text operation with the
fixed font, size, color and center alignment, horizontally centered
under that panel's illustration (anchor at slot left edge plus W/2)
and at the fixed baseline inside the caption band of height C (its y
is the band's vertical center plus the source's 10px baseline
adjustment, and lies strictly inside the band). -/
theorem caption_layout (L : String → Option Image) (panels : List ComicPanel)
    (j : Fin panels.length) :
    DrawOp.text (panels.get j).caption
        (COMIC_PADDING + j.1 * (PANEL_WIDTH + COMIC_PADDING) + PANEL_WIDTH / 2) capY
        "20px Arial" "#333" "center"
      ∈ stitchOps L panels
    ∧ COMIC_PADDING + PANEL_HEIGHT ≤ capY
    ∧ capY < COMIC_PADDING + PANEL_HEIGHT + CAPTION_HEIGHT
    ∧ capY = COMIC_PADDING + PANEL_HEIGHT + CAPTION_HEIGHT / 2 + 10 := by
  refine ⟨?_, by decide, by decide, rfl⟩
  rw [stitchOps_closed]
  apply List.mem_cons_of_mem
  rw [List.mem_flatten]
  refine ⟨panelOpsAt L (panelX j.1) (panels.get j),
          List.mem_map.mpr ⟨j, List.mem_finRange j, rfl⟩, ?_⟩
  unfold panelOpsAt
  cases hload : L (panelSrc (panels.get j)) with
  | some img => simp [successOps, panelX]
  | none => simp [fallbackOps, panelX]

/-- C9: for a fully-resolved non-empty panel list, stitching is a
pure function of the panel list: two runs over canvases in arbitrary
prior states produce identical dimensions, identical pixels, and the
same download callback, so the encoded artifact is pixel-identical. -/
theorem stitch_deterministic (L : String → Option Image) (panels : List ComicPanel)
    (c1 c2 : Canvas) (h : panels ≠ [])
    (hres : ∀ j : Fin panels.length, (L (panelSrc (panels.get j))).isSome) :
    drawComicForDownload L (some c1) panels = drawComicForDownload L (some c2) panels := by
  have hlen : panels.length ≠ 0 := fun hl => h (List.length_eq_zero.mp hl)
  simp [drawComicForDownload, hlen]

/-- Witness for C9 at a concrete panel list and two different
initial canvases. -/
theorem stitch_deterministic_witness :
    drawComicForDownload sampleLoader (some sampleCanvas) samplePanels4
      = drawComicForDownload sampleLoader (some sampleCanvas2) samplePanels4 :=
  stitch_deterministic sampleLoader samplePanels4 sampleCanvas sampleCanvas2
    (by decide) (fun _ => rfl)

/-- C10: with an empty panel list the stitch returns immediately:
the canvas is untouched, onDownloadReady is never invoked (no
download artifact exists), and the ComicStrip effect does not invoke
the stitch at all. -/
theorem empty_panels_no_artifact (L : String → Option Image)
    (canvasRef : Option Canvas) (loading : Bool) :
    drawComicForDownload L canvasRef [] = (canvasRef, false)
    ∧ comicStripEffect [] loading = false := by
  constructor
  · cases canvasRef <;> rfl
  · rfl

/-- With the API key present, the prompt call is always issued (the
key check is the only thing that can stop it before the request). -/
theorem promptIssued (apiKey : Option String) (key : String) (hk : apiKey = some key)
    (n : Nat) (resp : Except String (Option String)) :
    (generateComicPrompts apiKey n resp).2 = true := by
  rw [hk]
  unfold generateComicPrompts
  cases resp with
  | error m => rfl
  | ok t =>
    simp only
    by_cases he : jsTrim (t.getD "") = ""
    · simp [he]
    · simp only [if_neg he]
      cases jsonParse (jsTrim (t.getD "")) <;> rfl

/-- C5: in every run the Prompt Generator call starts and completes
before the first Panel Image Generator call is issued, and each panel
call completes (with success or failure) before the next is issued:
the emitted call trace is well-sequenced, with no two generation
calls ever outstanding at once. -/
theorem generation_calls_sequential (env : Env) (st : AppState) :
    SequentialRun (handleGenerateComic env st).2 := by
  unfold handleGenerateComic
  cases hui : st.uploadedImage with
  | none => simp [SequentialRun]
  | some u =>
  cases hum : st.uploadedImageMimeType with
  | none => simp [SequentialRun]
  | some m =>
  cases hk : env.apiKey with
  | none =>
    have hpres : generateComicPrompts none DEFAULT_PANEL_COUNT env.promptResp
        = (.error .configError, false) := rfl
    simp only [hpres]
    simp [SequentialRun]
  | some key =>
    have hiss := promptIssued (some key) key rfl DEFAULT_PANEL_COUNT env.promptResp
    cases hres : (generateComicPrompts (some key) DEFAULT_PANEL_COUNT env.promptResp).1 with
    | error e =>
      simp only [hiss, hres, if_true]
      right
      exact ⟨[], rfl, SeqOk.nil 0⟩
    | ok j =>
      simp only [hiss, hres, if_true]
      by_cases hguard : (jsFalsy j || jsLengthZero j) = true
      · simp only [hguard, if_true]
        right
        exact ⟨[], rfl, SeqOk.nil 0⟩
      · simp only [Bool.not_eq_true] at hguard
        simp only [hguard, Bool.false_eq_true, if_false]
        split
        next =>
          right
          exact ⟨[], rfl, SeqOk.nil 0⟩
        next elems heq =>
          split
          next e heq2 =>
            right
            exact ⟨(runPanels env 0 elems).2, rfl, runPanels_seq env elems 0⟩
          next ps heq2 =>
            right
            exact ⟨(runPanels env 0 elems).2, rfl, runPanels_seq env elems 0⟩

/-- C1: if some panel-generation call of a run fails (calls before
index k succeed, call k fails), the orchestrator issues no call past
index k, discards every accumulated panel (the exposed panel list
stays empty), produces no ComicDocument (the view is unchanged) and
no download artifact, clears the loading flag, and surfaces exactly
one aggregate error message wrapping the failing call's error. -/
theorem abort_on_panel_failure (env : Env) (st : AppState)
    (key t0 : String) (es : List Json) (k : Nat) (err : JsError)
    (hui : st.uploadedImage.isSome) (hum : st.uploadedImageMimeType.isSome)
    (hk : env.apiKey = some key)
    (hresp : env.promptResp = .ok (some t0))
    (hne : jsTrim t0 ≠ "")
    (hparse : jsonParse (jsTrim t0) = some (Json.jarr es))
    (hkl : k < es.length)
    (hok : ∀ j, j < k → ∃ d, imgOutcome env j = .ok d)
    (hfail : imgOutcome env k = .error err) :
    (handleGenerateComic env st).1.comicPanels = []
    ∧ (handleGenerateComic env st).1.comicDownloadDataUrl = none
    ∧ (handleGenerateComic env st).1.view = st.view
    ∧ (handleGenerateComic env st).1.loading = false
    ∧ (handleGenerateComic env st).1.error = some (topError err)
    ∧ ∀ j, Event.imageCallStart j ∈ (handleGenerateComic env st).2 → j ≤ k := by
  obtain ⟨u, hu⟩ := Option.isSome_iff_exists.mp hui
  obtain ⟨m, hm⟩ := Option.isSome_iff_exists.mp hum
  have hpres : (generateComicPrompts env.apiKey DEFAULT_PANEL_COUNT env.promptResp).1
      = .ok (Json.jarr es) := by
    rw [hk, hresp]
    unfold generateComicPrompts
    simp [hne, hparse]
  have hiss := promptIssued env.apiKey key hk DEFAULT_PANEL_COUNT env.promptResp
  have hesne : es.isEmpty = false := by
    cases es with
    | nil => simp at hkl
    | cons a l => rfl
  have hrp := runPanels_first_fail env key hk err es 0 k hkl
    (by intro j hj; simpa using hok j hj)
    (by simpa using hfail)
  have hred : handleGenerateComic env st
      = ({ st with loading := false, error := some (topError err), comicPanels := [],
                   comicDownloadDataUrl := none },
         [Event.promptCallStart, Event.promptCallEnd] ++ callTrace 0 (k + 1)) := by
    unfold handleGenerateComic
    rw [hu, hm]
    simp only [hpres, hiss, if_true, jsFalsy, jsLengthZero, hesne, Bool.or_self,
      Bool.false_eq_true, if_false, jsIterate, hrp]
  rw [hred]
  refine ⟨rfl, rfl, rfl, rfl, rfl, ?_⟩
  intro j hj
  simp only [List.mem_append, List.mem_cons, List.not_mem_nil] at hj
  rcases hj with (h | h | h) | h
  · cases h
  · cases h
  · cases h
  · have := mem_callTrace_start h
    omega

/-- Environment used to witness the abort claim: panel call 0
succeeds, panel call 1 delivers a response with no image payload. -/
def sampleFailEnv : Env :=
  { apiKey := some "key",
    promptResp := .ok (some "[\x7b\x22panelNumber\x22:1,\x22imagePrompt\x22:\x22a\x22,\x22caption\x22:\x22b\x22\x7d,\x7b\x22panelNumber\x22:2,\x22imagePrompt\x22:\x22c\x22,\x22caption\x22:\x22d\x22\x7d]"),
    imgResp := fun i => if i = 0 then .ok [GenPart.inlineData "AAA"] else .ok [] }

/-- Initial component state used by orchestrator witnesses. -/
def sampleState : AppState :=
  { view := .preview,
    uploadedImage := some { base64 := "b64", filename := "photo.png" },
    uploadedImageMimeType := some "image/png",
    comicPanels := [],
    comicDownloadDataUrl := none,
    loading := false,
    error := none }

/-- Parsed panel script of sampleFailEnv's prompt response. -/
def sampleScript : List Json :=
  [Json.jobj [("panelNumber", Json.jnum 1), ("imagePrompt", Json.jstr "a"),
              ("caption", Json.jstr "b")],
   Json.jobj [("panelNumber", Json.jnum 2), ("imagePrompt", Json.jstr "c"),
              ("caption", Json.jstr "d")]]

/-- Witness for C1 at the concrete failing run. -/
theorem abort_on_panel_failure_witness :
    (handleGenerateComic sampleFailEnv sampleState).1.comicPanels = []
    ∧ (handleGenerateComic sampleFailEnv sampleState).1.comicDownloadDataUrl = none
    ∧ (handleGenerateComic sampleFailEnv sampleState).1.view = sampleState.view
    ∧ (handleGenerateComic sampleFailEnv sampleState).1.loading = false
    ∧ (handleGenerateComic sampleFailEnv sampleState).1.error
        = some (topError (JsError.wrapImage JsError.noImageData))
    ∧ ∀ j, Event.imageCallStart j ∈ (handleGenerateComic sampleFailEnv sampleState).2 →
        j ≤ 1 :=
  abort_on_panel_failure sampleFailEnv sampleState "key"
    "[\x7b\x22panelNumber\x22:1,\x22imagePrompt\x22:\x22a\x22,\x22caption\x22:\x22b\x22\x7d,\x7b\x22panelNumber\x22:2,\x22imagePrompt\x22:\x22c\x22,\x22caption\x22:\x22d\x22\x7d]"
    sampleScript 1 (JsError.wrapImage JsError.noImageData)
    rfl rfl rfl rfl (by decide) rfl (by decide)
    (by
      intro j hj
      have hj0 : j = 0 := by omega
      subst hj0
      exact ⟨"AAA", rfl⟩)
    rfl

/-! ### Prompt Generator output claims -/

/-- Test whether one array entry has the shape the structured-output
schema describes. -/
def isPanelEntry (el : Json) : Bool :=
  match el.getField "panelNumber", el.getField "imagePrompt", el.getField "caption" with
  | some (Json.jnum _), some (Json.jstr _), some (Json.jstr _) => true
  | _, _, _ => false

/-- Modelled from the spec: COMIC_PANEL_SCHEMA (declared in types.ts,
which is not under src/) constrains the structured response to a JSON
array of objects, each with an integer panelNumber, a string
imagePrompt and a string caption. -/
def matchesComicSchema : Json → Bool
  | Json.jarr xs => xs.all isPanelEntry
  | _ => false

/-- Panel indices carried by a parsed prompt-generator output. -/
def panelNumbers : Json → List (Option Json)
  | Json.jarr xs => xs.map (fun el => el.getField "panelNumber")
  | _ => []

/-- Response text whose single entry carries panel index 2. -/
def badIndexResponse : String :=
  "[\x7b\x22panelNumber\x22:2,\x22imagePrompt\x22:\x22a\x22,\x22caption\x22:\x22b\x22\x7d]"

/-- Parsed value of badIndexResponse. -/
def badIndexJson : Json :=
  Json.jarr [Json.jobj [("panelNumber", Json.jnum 2), ("imagePrompt", Json.jstr "a"),
                        ("caption", Json.jstr "b")]]

/-- C6 counterexample: for requested panel count 1, a schema-valid
external response whose only entry carries panelNumber 2 is returned
by the Prompt Generator unchanged, so the returned indices are {2},
not the set {1..1}. -/
theorem prompt_indices_counterexample :
    (generateComicPrompts (some "key") 1 (.ok (some badIndexResponse))).1 = .ok badIndexJson
    ∧ matchesComicSchema badIndexJson = true
    ∧ panelNumbers badIndexJson = [some (Json.jnum 2)]
    ∧ Json.jnum 2 ≠ Json.jnum 1 := by
  refine ⟨rfl, rfl, rfl, ?_⟩
  simp

/-- C6 amended: for every requested panel count the Prompt Generator
returns the external response parsed as JSON exactly as delivered,
with no validation of entry count, panel indices or length limits;
its panel indices therefore form {1..n} only when the external
response's already do. -/
theorem prompt_output_unvalidated (key t : String) (n : Nat) (j : Json)
    (hne : jsTrim t ≠ "") (hp : jsonParse (jsTrim t) = some j) :
    (generateComicPrompts (some key) n (.ok (some t))).1 = .ok j := by
  unfold generateComicPrompts
  simp [hne, hp]

/-- Witness for the amended C6 at a concrete response. -/
theorem prompt_output_unvalidated_witness :
    (generateComicPrompts (some "key") 4 (.ok (some " [1] "))).1
      = .ok (Json.jarr [Json.jnum 1]) :=
  prompt_output_unvalidated "key" " [1] " 4 (Json.jarr [Json.jnum 1])
    (by decide) rfl

/-- C7 counterexample: the text 42 is valid JSON that does not match
the schema, yet the Prompt Generator returns it successfully instead
of failing with a ParseError — only syntactic JSON validity is
checked. -/
theorem prompt_schema_not_checked_counterexample :
    (generateComicPrompts (some "key") 4 (.ok (some "42"))).1 = .ok (Json.jnum 42)
    ∧ matchesComicSchema (Json.jnum 42) = false :=
  ⟨rfl, rfl⟩

/-- C7 amended: with the key present and the prompt call delivered,
the Prompt Generator fails with the EmptyResponseError exactly when
the response carries no text (or only whitespace), and with the
ParseError exactly when the trimmed text is not syntactically valid
JSON (schema conformance is never checked); and whenever the text is
malformed JSON, the orchestrator run issues no illustration call and
surfaces exactly the wrapped ParseError. -/
theorem prompt_error_kinds (key : String) (n : Nat) (t : Option String)
    (env : Env) (st : AppState) :
    ((generateComicPrompts (some key) n (.ok t)).1
        = .error (.wrapPrompts .emptyResponse) ↔ jsTrim (t.getD "") = "")
    ∧ ((generateComicPrompts (some key) n (.ok t)).1
        = .error (.wrapPrompts .parseError)
        ↔ jsTrim (t.getD "") ≠ "" ∧ jsonParse (jsTrim (t.getD "")) = none)
    ∧ (st.uploadedImage.isSome → st.uploadedImageMimeType.isSome →
        env.apiKey = some key → env.promptResp = .ok t →
        jsTrim (t.getD "") ≠ "" → jsonParse (jsTrim (t.getD "")) = none →
        (∀ i, Event.imageCallStart i ∉ (handleGenerateComic env st).2)
        ∧ (handleGenerateComic env st).1.error
            = some (topError (.wrapPrompts .parseError))) := by
  refine ⟨?_, ?_, ?_⟩
  · unfold generateComicPrompts
    by_cases he : jsTrim (t.getD "") = ""
    · simp [he]
    · simp only [if_neg he]
      cases hp : jsonParse (jsTrim (t.getD "")) <;> simp [he]
  · unfold generateComicPrompts
    by_cases he : jsTrim (t.getD "") = ""
    · simp [he]
    · simp only [if_neg he]
      cases hp : jsonParse (jsTrim (t.getD "")) <;> simp [he, hp]
  · intro hui hum hk hresp hne hp
    obtain ⟨u, hu⟩ := Option.isSome_iff_exists.mp hui
    obtain ⟨m, hm⟩ := Option.isSome_iff_exists.mp hum
    have hpres : (generateComicPrompts env.apiKey DEFAULT_PANEL_COUNT env.promptResp).1
        = .error (.wrapPrompts .parseError) := by
      rw [hk, hresp]
      unfold generateComicPrompts
      simp [hne, hp]
    have hiss := promptIssued env.apiKey key hk DEFAULT_PANEL_COUNT env.promptResp
    have hred : handleGenerateComic env st
        = ({ st with loading := false,
                     error := some (topError (.wrapPrompts .parseError)),
                     comicPanels := [], comicDownloadDataUrl := none },
           [Event.promptCallStart, Event.promptCallEnd]) := by
      unfold handleGenerateComic
      rw [hu, hm]
      simp only [hpres, hiss, if_true]
    rw [hred]
    exact ⟨fun i hi => by simp at hi, rfl⟩

/-- Environment whose prompt response is malformed JSON, used to
witness the amended C7. -/
def malformedEnv : Env :=
  { apiKey := some "key",
    promptResp := .ok (some "oops"),
    imgResp := fun _ => .ok [] }

/-- Witness for the amended C7 at a concrete malformed response. -/
theorem prompt_error_kinds_witness :
    (∀ i, Event.imageCallStart i ∉ (handleGenerateComic malformedEnv sampleState).2)
    ∧ (handleGenerateComic malformedEnv sampleState).1.error
        = some (topError (.wrapPrompts .parseError)) :=
  (prompt_error_kinds "key" DEFAULT_PANEL_COUNT (some "oops") malformedEnv sampleState).2.2
    rfl rfl rfl rfl (by decide) rfl

end TeVeo
